import Mathlib

/-!
Verification of the Fluke289 protocol codec (src/Fluke289.py).

This file gives a shallow embedding of the protocol codec and framing layer
of `Fluke289.py`, and proves/refutes the frozen claims about it.

Modelling conventions:
* A Python `bytes` buffer is a `List Nat` (each entry a byte value 0..255).
* Fallible Python code (raising `ValueError`, `IOError`, `KeyError`,
  `AssertionError`, `IndexError`, `struct.error`, `UnicodeDecodeError`)
  becomes `Except PyErr _`.
* Python's IEEE-754 doubles are modelled exactly at the bit level: a finite
  double decodes to the exact rational it denotes, and `round(x, 8)` is
  modelled as exact half-even rounding to 8 decimal places of that rational
  (the idealisation of Python's correctly-rounded decimal rounding).
* `time.gmtime` (an external library call) is modelled as the identity on
  the seconds value it is given.
-/

/-- Errors surfaced by the Python code: the four protocol `IOError`s raised
in `Fluke289._command`, plus `UnicodeDecodeError` (from `bytes.decode`),
`struct.error` (from `struct.unpack` on a wrongly sized buffer),
`KeyError` (failed dict lookups in the vocabulary maps), `ValueError`
(including the QDDB length-mismatch error, which carries the expected and
actual byte counts), `AssertionError` and `IndexError`. -/
inductive PyErr where
  | errSyntaxStatus : PyErr
  | errExecution : PyErr
  | errNoData : PyErr
  | errInvalid : PyErr
  | errUnicode : PyErr
  | errStruct : PyErr
  | errKey (k : String) : PyErr
  | errValue (msg : String) : PyErr
  | errLen (expected actual : Nat) : PyErr
  | errAssert : PyErr
  | errIndex : PyErr
deriving DecidableEq

deriving instance DecidableEq for Except

/-- Python `bytes.removeprefix(p)`: drop `p` from the front if present. -/
def pyDropLead (l p : List Nat) : List Nat :=
  if p.isPrefixOf l then l.drop p.length else l

/-- Python `bytes.removesuffix(p)`: drop `p` from the back if present. -/
def pyDropTrail (l p : List Nat) : List Nat :=
  if p.isSuffixOf l then l.take (l.length - p.length) else l

/-- Python slice `l[a:b]` for non-negative `a ≤ b` (out-of-range indices
clamp, never error). -/
def pySlice (l : List Nat) (a b : Nat) : List Nat :=
  (l.take b).drop a

/-- Python slice `l[start:stop:-1]` for non-negative `start` and `stop`:
the elements at indices `start, start-1, ..., stop+1` (the start index
clamps to the last index of the list; empty when `stop ≥ start`). -/
def pySliceRevTo (l : List Nat) (start stop : Nat) : List Nat :=
  ((l.drop (stop + 1)).take (min start (l.length - 1) + 1 - (stop + 1))).reverse

/-- Python slice `l[start::-1]` for non-negative `start`: the elements at
indices `start, start-1, ..., 0` (the start index clamps to the last index
of the list). -/
def pySliceRevAll (l : List Nat) (start : Nat) : List Nat :=
  (l.take (min start (l.length - 1) + 1)).reverse

/-- Python `struct.unpack('!H', b)`: big-endian unsigned 16-bit read; fails with
`struct.error` unless exactly two bytes are supplied. -/
def unpackH (bs : List Nat) : Except PyErr Nat :=
  match bs with
  | [b1, b0] => .ok (b1 * 256 + b0)
  | _ => .error .errStruct

/-- The exact value denoted by a finite IEEE-754 double, or the special
values. -/
inductive PyFloat where
  | fin (q : ℚ) : PyFloat
  | pinf : PyFloat
  | ninf : PyFloat
  | nan : PyFloat
deriving DecidableEq

/-- A big-endian byte list read as an unsigned integer. -/
def bytesToNatBE (bs : List Nat) : Nat :=
  bs.foldl (fun a b => a * 256 + b) 0

/-- Exact decode of a 64-bit IEEE-754 double from its bit pattern. -/
def ieeeOfBits (n : Nat) : PyFloat :=
  let s : ℕ := n / 2 ^ 63
  let e : ℕ := n / 2 ^ 52 % 2 ^ 11
  let f : ℕ := n % 2 ^ 52
  if e = 2047 then (if f = 0 then (if s = 1 then .ninf else .pinf) else .nan)
  else
    let mag : ℚ := if e = 0 then (f : ℚ) / 2 ^ 1074 else ((2 ^ 52 + f : ℕ) : ℚ) * 2 ^ e / 2 ^ 1075
    .fin (if s = 1 then -mag else mag)

/-- Python `struct.unpack('!d', b)`: big-endian IEEE-754 double read; fails with
`struct.error` unless exactly eight bytes are supplied. -/
def unpackD (bs : List Nat) : Except PyErr PyFloat :=
  if bs.length = 8 then .ok (ieeeOfBits (bytesToNatBE bs)) else .error .errStruct

/-- Round a rational to the nearest integer, ties to even. -/
def roundHalfEvenZ (q : ℚ) : ℤ :=
  let f := q.floor
  let r := q - (f : ℚ)
  if r < 1 / 2 then f else if 1 / 2 < r then f + 1 else if f % 2 = 0 then f else f + 1

/-- Python `round(x, 8)`: half-even rounding to 8 decimal places
(exact on the modelled rational; the identity on infinities and NaN). -/
def pyRound8 : PyFloat → PyFloat
  | .fin q => .fin ((roundHalfEvenZ (q * 100000000) : ℚ) / 100000000)
  | x => x

/-- Python `time.gmtime` modelled as the identity on the seconds value
(external library call, out of scope). -/
def gmtimeF (t : PyFloat) : PyFloat := t

/-- Function `_read_u16` (src/Fluke289.py:1554-1561): the two-byte window at
`offset` is taken with a reversed slice (with a distinct slicing rule for
`offset == 0`) and read as a big-endian unsigned 16-bit integer. -/
def _read_u16 (input_bytes : List Nat) (offset : Nat) : Except PyErr Nat :=
  if 0 < offset then unpackH (pySliceRevTo input_bytes (offset + 1) (offset - 1))
  else unpackH (pySliceRevAll input_bytes (offset + 1))

/-- Function `_read_i16` (src/Fluke289.py:1564-1569): `_read_u16` reinterpreted as
two's-complement (`val = -(0x10000 - val)` when bit 15 is set). -/
def _read_i16 (input_bytes : List Nat) (offset : Nat) : Except PyErr Int :=
  (_read_u16 input_bytes offset).map
    (fun (val : Nat) => if val &&& 32768 ≠ 0 then -((65536 : Int) - (val : Int)) else (val : Int))

/-- The eight bytes `_read_double` (src/Fluke289.py:1541-1551) assembles
before unpacking: the reversed low 4-byte half (with the distinct slicing
rule for `offset == 0`) followed by the reversed high 4-byte half. -/
def _read_double_bytes (input_bytes : List Nat) (offset : Nat) : List Nat :=
  (if 0 < offset then pySliceRevTo input_bytes (offset + 3) (offset - 1)
   else pySliceRevAll input_bytes (offset + 3)) ++
  pySliceRevTo input_bytes (offset + 7) (offset + 3)

/-- Function `_read_double` (src/Fluke289.py:1541-1551): unpack the assembled bytes
as a big-endian IEEE-754 double and round to 8 decimal places. -/
def _read_double (input_bytes : List Nat) (offset : Nat) : Except PyErr PyFloat :=
  (unpackD (_read_double_bytes input_bytes offset)).map pyRound8

/-- The payload-stripping step of a successful decode in
`Fluke289._command` (src/Fluke289.py:1464-1471): strip one leading
carriage return, one trailing carriage return, then one `"#0"` marker
from the front, each if present. -/
def stripPayload (r : List Nat) : List Nat :=
  pyDropLead (pyDropTrail (pyDropLead r [13]) [13]) [35, 48]

/-- The response-classification step of `Fluke289._command`
(src/Fluke289.py:1452-1471): `response[0:1].decode()` (UTF-8 decode of at
most one byte, so a first byte ≥ 0x80 raises `UnicodeDecodeError`), then
dispatch on the status character: `'0'` strips and returns the payload,
`'1'`/`'2'`/`'5'` raise the syntax/execution/no-data `IOError`s, anything
else (including an empty response) raises the invalid-response `IOError`. -/
def commandDecode (response : List Nat) : Except PyErr (List Nat) :=
  match response with
  | [] => .error .errInvalid
  | b :: rest =>
    if 128 ≤ b then .error .errUnicode
    else if b = 48 then .ok (stripPayload rest)
    else if b = 49 then .error .errSyntaxStatus
    else if b = 50 then .error .errExecution
    else if b = 53 then .error .errNoData
    else .error .errInvalid

/-- A key of a Python dict that may hold either `int` or `str` keys, as the
vocabulary maps in `Fluke289` do (`QEMAP` stores `int` keys, the persisted
JSON cache and the resolvers use `str` keys). -/
inductive PyKey where
  | pint (n : Int) : PyKey
  | pstr (s : String) : PyKey
deriving DecidableEq, BEq

/-- One vocabulary table: a Python dict from codes to labels. -/
abbrev Submap := List (PyKey × String)

/-- The session-wide vocabulary cache `Fluke289._map`: a Python dict from
table names to tables. -/
abbrev VocabCache := List (String × Submap)

/-- Python dict lookup `d[k]` on a vocabulary table (as an option). -/
def dlookup (d : Submap) (k : PyKey) : Option String :=
  (d.find? (fun p => p.1 == k)).map (fun p => p.2)

/-- Python dict assignment `d[k] = v` on a vocabulary table. -/
def pyDictSet (d : Submap) (k : PyKey) (v : String) : Submap :=
  if (d.find? (fun p => p.1 == k)).isSome then
    d.map (fun p => if p.1 == k then (k, v) else p)
  else d ++ [(k, v)]

/-- Python dict assignment `c[name] = sub` on the vocabulary cache. -/
def cacheSet (c : VocabCache) (name : String) (sub : Submap) : VocabCache :=
  if (c.find? (fun p => p.1 == name)).isSome then
    c.map (fun p => if p.1 == name then (name, sub) else p)
  else c ++ [(name, sub)]

/-- Python dict lookup `c[name]` on the vocabulary cache (as an option). -/
def cacheGet (c : VocabCache) (name : String) : Option Submap :=
  (c.find? (fun p => p.1 == name)).map (fun p => p.2)

/-- The digit characters of `s`, read as a natural number; `none` unless
`s` is a non-empty string of decimal digits. -/
def digitsToNat (l : List Char) : Option Nat :=
  if l ≠ [] ∧ l.all Char.isDigit then
    some (l.foldl (fun a c => a * 10 + (c.toNat - 48)) 0)
  else none

/-- Python `int(s)` on a (possibly signed) decimal string. -/
def pyIntCore (l : List Char) : Option Int :=
  match l with
  | '-' :: rest => (digitsToNat rest).map (fun n => -(n : Int))
  | '+' :: rest => (digitsToNat rest).map (fun n => (n : Int))
  | _ => (digitsToNat l).map (fun n => (n : Int))

/-- Python `int(s)`; raises `ValueError` on a malformed literal. -/
def pyInt (s : String) : Except PyErr Int :=
  match pyIntCore s.toList with
  | some v => .ok v
  | none => .error (.errValue s)

/-- The exact value of the fraction digits `l` after a decimal point. -/
def pyFracVal (l : List Char) : ℚ :=
  ((l.foldl (fun a c => a * 10 + (c.toNat - 48)) 0 : ℕ) : ℚ) / ((10 ^ l.length : ℕ) : ℚ)

/-- Python `float(s)` on an unsigned decimal literal `digits[.digits]`
(exact rational value). -/
def pyFloatMag (l : List Char) : Option ℚ :=
  match l.splitOn '.' with
  | [ip] => (digitsToNat ip).map (fun n => (n : ℚ))
  | [ip, fp] =>
    if (ip ≠ [] ∨ fp ≠ []) ∧ ip.all Char.isDigit ∧ fp.all Char.isDigit then
      some (((ip.foldl (fun a c => a * 10 + (c.toNat - 48)) 0 : ℕ) : ℚ) + pyFracVal fp)
    else none
  | _ => none

/-- Python `float(s)` on a (possibly signed) decimal literal. -/
def pyFloatCore (l : List Char) : Option ℚ :=
  match l with
  | '-' :: rest => (pyFloatMag rest).map (fun q => -q)
  | '+' :: rest => pyFloatMag rest
  | _ => pyFloatMag l

/-- Python `float(s)`; raises `ValueError` on a malformed literal. -/
def pyFloat (s : String) : Except PyErr ℚ :=
  match pyFloatCore s.toList with
  | some v => .ok v
  | none => .error (.errValue s)

/-- Python `str(n)` for a natural number (decimal digits). -/
def pyNatStr (n : Nat) : String :=
  String.mk (Nat.toDigits 10 n)

/-- The code-resolution pattern of every binary record parser
(`self._map[key][str(_read_u16(res, offs))]`, e.g. src/Fluke289.py:979-980):
look the table name up in the cache, then look the *string form* of the
code up in that table; a missing name or missing code raises `KeyError`. -/
def resolveMapCode (cache : VocabCache) (key : String) (code : Nat) : Except PyErr String :=
  match cacheGet cache key with
  | none => .error (.errKey key)
  | some sub =>
    match dlookup sub (.pstr (pyNatStr code)) with
    | none => .error (.errKey (pyNatStr code))
    | some l => .ok l

/-- The `mpr` macro of the binary record parsers
(src/Fluke289.py:979-980, 1092-1093, 1146-1147): read a u16 at `offs` and
resolve it through the named vocabulary table. -/
def mpr (cache : VocabCache) (key : String) (res : List Nat) (offs : Nat) : Except PyErr String := do
  let v ← _read_u16 res offs
  resolveMapCode cache key v

/-- The `QEMAP` dict-building loop (src/Fluke289.py:1327-1329):
`submap[int(out[2*i])] = out[2*i + 1]` for `i in range(n)`; note the keys
are stored as Python *ints*. -/
def qemapBuild (out : List String) (n : Nat) : Except PyErr Submap :=
  (List.range n).foldlM
    (fun d i =>
      match out.get? (2 * i) with
      | none => .error .errIndex
      | some ks =>
        match out.get? (2 * i + 1) with
        | none => .error .errIndex
        | some v => do
          let k ← pyInt ks
          .ok (pyDictSet d (.pint k) v))
    []

/-- Method `Fluke289.QEMAP` (src/Fluke289.py:1296-1337) on the comma-split
response: pop the leading count, check the remaining field count is twice
the count (else `ValueError`), build the table with integer keys, and
store it in the session-wide cache under `map_name`. Returns the table
and the updated cache. -/
def QEMAP (map_name : String) (resp : List String) (cache : VocabCache) :
    Except PyErr (Submap × VocabCache) :=
  match resp with
  | [] => .error .errIndex
  | c :: out => do
    let n ← pyInt c
    if (out.length : Int) ≠ n * 2 then .error (.errValue map_name)
    else do
      let sub ← qemapBuild out n.toNat
      .ok (sub, cacheSet cache map_name sub)

/-- A Python value that may be a string, an int, or a tuple (needed to
model the 1-tuples that `RangeData.__init__`'s trailing commas create). -/
inductive PyVal where
  | vstr (s : String) : PyVal
  | vint (n : Int) : PyVal
  | vtup1 (v : PyVal) : PyVal
deriving DecidableEq

/-- The fields `RangeData.__init__` (src/Fluke289.py:1474-1485) assigns. -/
structure RangeData where
  auto_range : PyVal
  base_unit : PyVal
  range_number : PyVal
  unit_multiplier : PyVal
deriving DecidableEq

/-- Method `RangeData.__init__` (src/Fluke289.py:1476-1485): asserts the 4-field
length, then assigns `data[0],` (a 1-tuple: the source line ends in a
comma), `data[1]`, `int(data[2]),` (again a 1-tuple) and `int(data[3])`. -/
def rangeDataInit (data : List String) : Except PyErr RangeData :=
  if data.length ≠ 4 then .error .errAssert
  else do
    let r2 ← pyInt (data.getD 2 "")
    let r3 ← pyInt (data.getD 3 "")
    .ok ⟨.vtup1 (.vstr (data.getD 0 "")), .vstr (data.getD 1 ""), .vtup1 (.vint r2), .vint r3⟩

/-- The fields the `"ascii"` branch of `Reading.__init__`
(src/Fluke289.py:1500-1516) assigns. -/
structure ReadingA where
  id : String
  value : ℚ
  unit : String
  unit_multiplier : Int
  decimal_places : Int
  displayed_digits : Int
  reading_state : String
  reading_attribute : String
  time_stamp : ℚ
deriving DecidableEq

/-- The `"ascii"` branch of `Reading.__init__` (src/Fluke289.py:1500-1516):
assert `len(data) == 8`, then read the nine fields `data[0]` .. `data[8]`
(so `data[8]` is an `IndexError` whenever the length assertion passed). -/
def readingAscii (data : List String) : Except PyErr ReadingA :=
  if data.length ≠ 8 then .error .errAssert
  else
    match pyFloat (data.getD 1 "") with
    | .error e => .error e
    | .ok v =>
      match pyInt (data.getD 3 "") with
      | .error e => .error e
      | .ok um =>
        match pyInt (data.getD 4 "") with
        | .error e => .error e
        | .ok dp =>
          match pyInt (data.getD 5 "") with
          | .error e => .error e
          | .ok dd =>
            match data.get? 8 with
            | none => .error .errIndex
            | some s8 =>
              match pyFloat s8 with
              | .error e => .error e
              | .ok ts =>
                .ok ⟨data.getD 0 "", v, data.getD 2 "", um, dp, dd,
                     data.getD 6 "", data.getD 7 "", ts⟩

/-- The fields the `"binary"` branch of `Reading.__init__`
(src/Fluke289.py:1518-1536) assigns. -/
structure ReadingB where
  reading_id : String
  value : PyFloat
  unit : String
  unit_multiplier : Int
  decimal_places : Nat
  display_digits : Nat
  reading_state : String
  reading_attribute : String
  time_stamp : PyFloat
deriving DecidableEq

/-- The `"binary"` branch of `Reading.__init__` (src/Fluke289.py:1518-1536):
assert the 30-byte length, then decode the fixed layout, resolving the
enum-valued fields through the vocabulary cache. -/
def readingBinary (data : List Nat) (cache : VocabCache) : Except PyErr ReadingB :=
  if data.length ≠ 30 then .error .errAssert
  else do
    let rid ← mpr cache "READINGID" data 0
    let v ← _read_double data 2
    let u ← mpr cache "UNIT" data 10
    let um ← _read_i16 data 12
    let dp ← _read_u16 data 14
    let dd ← _read_u16 data 16
    let st ← mpr cache "STATE" data 18
    let att ← mpr cache "ATTRIBUTE" data 20
    let ts ← _read_double data 22
    .ok ⟨rid, v, u, um, dp, dd, st, att, gmtimeF ts⟩

/-- The 30-byte window `res[(34+(i*30)):(64+(i*30))]` that `Fluke289.QDDB`
(src/Fluke289.py:981-982) hands to the binary `Reading` constructor. -/
def qddbSlice (res : List Nat) (i : Nat) : List Nat :=
  pySlice res (34 + i * 30) (64 + i * 30)

/-- The fields `Fluke289.QDDB` (src/Fluke289.py:984-996) returns. -/
structure QDDBResult where
  primary_function : String
  secondary_function : String
  autorange : String
  unit : String
  range_max : PyFloat
  unit_mult : Int
  bolt : String
  tsval : PyFloat
  mode : String
  un1 : Nat
  readings : List ReadingB
deriving DecidableEq

/-- Method `Fluke289.QDDB` (src/Fluke289.py:962-996) on the decoded response
bytes: read the declared count at offset 32, check
`len(res) == count * 30 + 34` (raising the length-mismatch `ValueError`
carrying expected and actual lengths), then decode the header fields and
the per-reading 30-byte blocks. -/
def QDDB (cache : VocabCache) (res : List Nat) : Except PyErr QDDBResult :=
  match _read_u16 res 32 with
  | .error e => .error e
  | .ok num_readings =>
    if res.length ≠ num_readings * 30 + 34 then
      .error (.errLen (num_readings * 30 + 34) res.length)
    else do
      let pf ← mpr cache "PRIMFUNCTION" res 0
      let sf ← mpr cache "SECFUNCTION" res 2
      let ar ← mpr cache "AUTORANGE" res 4
      let u ← mpr cache "UNIT" res 6
      let rm ← _read_double res 8
      let um ← _read_i16 res 16
      let bolt ← mpr cache "BOLT" res 18
      let ts ← _read_double res 20
      let mode ← mpr cache "MODE" res 28
      let un1 ← _read_u16 res 30
      let rds ← (List.range num_readings).mapM (fun i => readingBinary (qddbSlice res i) cache)
      .ok ⟨pf, sf, ar, u, rm, um, bolt, gmtimeF ts, mode, un1, rds⟩

/-- The fields `Fluke289.QRSI` (src/Fluke289.py:1149-1173) returns. -/
structure QRSIResult where
  sequence_number : Nat
  un2 : Nat
  start_time : PyFloat
  end_time : PyFloat
  sample_interval : PyFloat
  event_threshold : PyFloat
  reading_index : Nat
  un3 : Nat
  number_of_samples : Nat
  un4 : Nat
  primary_function : String
  secondary_function : String
  auto_range : String
  unit : String
  range_max : PyFloat
  unit_multiplier : Int
  bolt : String
  un8 : Nat
  un9 : Nat
  un10 : Nat
  un11 : Nat
  mode : String
  un12 : Nat
deriving DecidableEq

/-- Method `Fluke289.QRSI` (src/Fluke289.py:1130-1173) on the decoded response
bytes: decode the fixed 76-byte layout field by field; note the source
performs no length validation at all. -/
def QRSI (cache : VocabCache) (res : List Nat) : Except PyErr QRSIResult := do
  let sq ← _read_u16 res 0
  let un2 ← _read_u16 res 2
  let st ← _read_double res 4
  let et ← _read_double res 12
  let si ← _read_double res 20
  let evth ← _read_double res 28
  let ri ← _read_u16 res 36
  let un3 ← _read_u16 res 38
  let ns ← _read_u16 res 40
  let un4 ← _read_u16 res 42
  let pf ← mpr cache "PRIMFUNCTION" res 44
  let sf ← mpr cache "SECFUNCTION" res 46
  let ar ← mpr cache "AUTORANGE" res 48
  let u ← mpr cache "UNIT" res 50
  let rm ← _read_double res 52
  let um ← _read_i16 res 60
  let bolt ← mpr cache "BOLT" res 62
  let un8 ← _read_u16 res 64
  let un9 ← _read_u16 res 66
  let un10 ← _read_u16 res 68
  let un11 ← _read_u16 res 70
  let mode ← mpr cache "MODE" res 72
  let un12 ← _read_u16 res 74
  .ok ⟨sq, un2, gmtimeF st, gmtimeF et, si, evth, ri, un3, ns, un4,
       pf, sf, ar, u, rm, um, bolt, un8, un9, un10, un11, mode, un12⟩

/-- The 30-byte window `res[(38+(i*30)):(68+(i*30))]` that `Fluke289.QSMR`
(src/Fluke289.py:1094-1095) hands to the binary `Reading` constructor. -/
def qsmrSlice (res : List Nat) (i : Nat) : List Nat :=
  pySlice res (38 + i * 30) (68 + i * 30)

/-- Python `bytes.decode()` restricted to ASCII content (sufficient for
the payloads considered here); a byte ≥ 0x80 fails. -/
def pyBytesDecode (bs : List Nat) : Except PyErr String :=
  if bs.all (fun b => b < 128) then .ok (String.mk (bs.map Char.ofNat))
  else .error .errUnicode

/-- The fields `Fluke289.QSMR` (src/Fluke289.py:1101-1120) returns. -/
structure QSMRResult where
  sequence_number : Nat
  un1 : Nat
  primary_function : String
  secondary_function : String
  auto_range : String
  unit : String
  range_max : PyFloat
  unit_multiplier : Int
  bolt : String
  un4 : Nat
  un5 : Nat
  un6 : Nat
  un7 : Nat
  mode : String
  un9 : Nat
  num_measurements : Nat
  measurements : List ReadingB
  name : String
deriving DecidableEq

/-- Method `Fluke289.QSMR` (src/Fluke289.py:1078-1120) on the decoded response
bytes: read the declared count at offset 36, decode the header fields, the
per-measurement 30-byte blocks, and the trailing name
`res[38 + count*30:].decode()`; note the source performs no length
validation of the payload. -/
def QSMR (cache : VocabCache) (res : List Nat) : Except PyErr QSMRResult :=
  match _read_u16 res 36 with
  | .error e => .error e
  | .ok num_measurements => do
    let sq ← _read_u16 res 0
    let un1 ← _read_u16 res 2
    let pf ← mpr cache "PRIMFUNCTION" res 4
    let sf ← mpr cache "SECFUNCTION" res 6
    let ar ← mpr cache "AUTORANGE" res 8
    let u ← mpr cache "UNIT" res 10
    let rm ← _read_double res 12
    let um ← _read_i16 res 20
    let bolt ← mpr cache "BOLT" res 22
    let un4 ← _read_u16 res 24
    let un5 ← _read_u16 res 26
    let un6 ← _read_u16 res 28
    let un7 ← _read_u16 res 30
    let mode ← mpr cache "MODE" res 32
    let un9 ← _read_u16 res 34
    let ms ← (List.range num_measurements).mapM (fun i => readingBinary (qsmrSlice res i) cache)
    let name ← pyBytesDecode (res.drop (38 + num_measurements * 30))
    .ok ⟨sq, un1, pf, sf, ar, u, rm, um, bolt, un4, un5, un6, un7, mode, un9,
         num_measurements, ms, name⟩

/-- Boolean discriminator: `true` iff the parse succeeded (discriminator for counterexamples). -/
def isOkE {α : Type} (e : Except PyErr α) : Bool :=
  match e with
  | .ok _ => true
  | .error _ => false

/-- Python `"{}".format(n)` for a natural number, as bytes. -/
def pyFormatNat (n : Nat) : List Nat :=
  (Nat.toDigits 10 n).map Char.toNat

/-- One round of `Fluke289.QLCDBM` (src/Fluke289.py:1231-1262): the decoded
response for a requested `offset`, with the textual `"<offset> #0"` marker
stripped from the front. `tr` abstracts the transport: it maps a requested
offset to the decoded `_command` payload. -/
def chunkAt (tr : Nat → List Nat) (off : Nat) : List Nat :=
  pyDropLead (tr off) (pyFormatNat off ++ [32, 35, 48])

/-- The `while more_to_read` loop of `Fluke289.QLCDBM`
(src/Fluke289.py:1252-1278), fuel-indexed: request the chunk at `off`,
append it, and continue from `off + nbytes` exactly while
`nbytes == 1020 - len("<offset> ")`. Returns the bytes appended and the
offsets requested, or `none` when the fuel runs out. -/
def qlcdbmLoop (tr : Nat → List Nat) : Nat → Nat → Option (List Nat × List Nat)
  | 0, _ => none
  | fuel + 1, off =>
    let tmp := chunkAt tr off
    let nbytes := tmp.length
    if (nbytes : Int) = 1020 - ((pyFormatNat off).length + 1 : Int) then
      match qlcdbmLoop tr fuel (off + nbytes) with
      | none => none
      | some (restBuf, restReqs) => some (tmp ++ restBuf, off :: restReqs)
    else some (tmp, [off])

/-- Method `Fluke289.QLCDBM` (src/Fluke289.py:1199-1278) up to the external
decompression step: request offset 0, strip `"0 #0"`, and if exactly 1018
bytes came back keep requesting from the cumulative offset. Returns the
assembled buffer and the list of requested offsets (`none` when the fuel
runs out). -/
def QLCDBM (tr : Nat → List Nat) (fuel : Nat) : Option (List Nat × List Nat) :=
  let img := chunkAt tr 0
  if img.length = 1018 then
    match qlcdbmLoop tr fuel 1018 with
    | none => none
    | some (restBuf, restReqs) => some (img ++ restBuf, 0 :: restReqs)
  else some (img, [0])

/-- Total length of the chunks received for the requested offsets. -/
def sumChunks (tr : Nat → List Nat) (reqs : List Nat) : Nat :=
  (reqs.map (fun o => (chunkAt tr o).length)).sum

/-- Each offset in the request list after the first is the previous offset
advanced by the length of the chunk received there — i.e. every requested
offset equals the cumulative number of bytes received before it. -/
def offsetsCumulative (tr : Nat → List Nat) : List Nat → Prop
  | [] => True
  | [_] => True
  | a :: b :: rest => b = a + (chunkAt tr a).length ∧ offsetsCumulative tr (b :: rest)

/-- A vocabulary cache (as loaded from the persisted JSON, hence string
keys) binding code 0 in every table the binary record parsers consult:
a concrete test fixture. -/
def stdMap : VocabCache :=
  [("PRIMFUNCTION", [(PyKey.pstr "0", "PF0")]),
   ("SECFUNCTION", [(PyKey.pstr "0", "SF0")]),
   ("AUTORANGE", [(PyKey.pstr "0", "AR0")]),
   ("UNIT", [(PyKey.pstr "0", "U0")]),
   ("BOLT", [(PyKey.pstr "0", "B0")]),
   ("MODE", [(PyKey.pstr "0", "M0")]),
   ("READINGID", [(PyKey.pstr "0", "R0")]),
   ("STATE", [(PyKey.pstr "0", "S0")]),
   ("ATTRIBUTE", [(PyKey.pstr "0", "A0")])]

/-- A simulated transport returning exactly 1018-byte chunks at offsets
0, 1018 and 2036, and a smaller (100-byte) chunk at any other offset:
the scenario of the claim. -/
def trChunk1018 (off : Nat) : List Nat :=
  if off = 0 then pyFormatNat 0 ++ [32, 35, 48] ++ List.replicate 1018 65
  else if off = 1018 then pyFormatNat 1018 ++ [32, 35, 48] ++ List.replicate 1018 65
  else if off = 2036 then pyFormatNat 2036 ++ [32, 35, 48] ++ List.replicate 1018 65
  else pyFormatNat off ++ [32, 35, 48] ++ List.replicate 100 65

/-- A simulated transport whose chunk lengths match the code's actual
continuation thresholds: 1018 bytes at offset 0, then 1015-byte chunks at
the 4-digit offsets 1018 and 2033, and a smaller (200-byte) final chunk. -/
def trChunkMax (off : Nat) : List Nat :=
  if off = 0 then pyFormatNat 0 ++ [32, 35, 48] ++ List.replicate 1018 65
  else if off = 1018 then pyFormatNat 1018 ++ [32, 35, 48] ++ List.replicate 1015 65
  else if off = 2033 then pyFormatNat 2033 ++ [32, 35, 48] ++ List.replicate 1015 65
  else pyFormatNat off ++ [32, 35, 48] ++ List.replicate 200 65

set_option maxRecDepth 8000

/-- Helper: a `drop`/`take` window is the list of `getD` reads. -/
lemma dropTake_map_getD : ∀ (w a : Nat) (l : List Nat), a + w ≤ l.length →
    (l.drop a).take w = (List.range w).map (fun j => l.getD (a + j) 0) := by
  intro w
  induction w with
  | zero => simp
  | succ n ih =>
    intro a l h
    have ha : a < l.length := by omega
    rw [List.drop_eq_getElem_cons ha, List.range_succ_eq_map]
    simp only [List.take_succ_cons, List.map_cons, List.map_map]
    congr 1
    · rw [Nat.add_zero, List.getD_eq_getElem l 0 ha]
    · rw [ih (a + 1) l (by omega)]
      apply List.map_congr_left
      intro j hj
      simp only [Function.comp_apply]
      congr 1
      omega

/-- Helper: the two-byte window at `a`. -/
lemma window2 (l : List Nat) (a : Nat) (h : a + 2 ≤ l.length) :
    (l.drop a).take 2 = [l.getD a 0, l.getD (a + 1) 0] := by
  rw [dropTake_map_getD 2 a l h]
  simp [List.range_succ]

/-- Helper: an in-range reversed Python slice `l[a+w-1 : a-1 : -1]` is the
reversed `w`-byte window starting at `a`. -/
lemma pySliceRevTo_window (l : List Nat) (a w : Nat) (h1 : 1 ≤ a) (h2 : a + w ≤ l.length) :
    pySliceRevTo l (a + w - 1) (a - 1) = ((l.drop a).take w).reverse := by
  unfold pySliceRevTo
  have e1 : a - 1 + 1 = a := by omega
  have e2 : min (a + w - 1) (l.length - 1) + 1 - (a - 1 + 1) = w := by
    have : a + w - 1 ≤ l.length - 1 := by omega
    rw [min_eq_left this]
    omega
  rw [e2, e1]

/-- Helper: an in-range reversed Python slice `l[w-1 : : -1]` is the
reversed `w`-byte window starting at 0. -/
lemma pySliceRevAll_window (l : List Nat) (w : Nat) (h2 : w ≤ l.length) (h3 : 1 ≤ w) :
    pySliceRevAll l (w - 1) = (l.take w).reverse := by
  unfold pySliceRevAll
  have : min (w - 1) (l.length - 1) + 1 = w := by
    rw [min_eq_left (by omega)]
    omega
  rw [this]

/-- C6: for every buffer and every in-range offset (`offset + 2 ≤ length`),
`_read_u16` returns the standard little-endian decode
`buf[offset] + 256 * buf[offset+1]` — the reversed 2-byte window read as
big-endian — including the special-cased `offset = 0` slicing rule. -/
theorem claim6_read_u16_little_endian (buf : List Nat) (offset : Nat)
    (h : offset + 2 ≤ buf.length) :
    _read_u16 buf offset = .ok (buf.getD offset 0 + 256 * buf.getD (offset + 1) 0) := by
  unfold _read_u16
  rcases Nat.eq_zero_or_pos offset with h0 | h0
  · subst h0
    rw [if_neg (by omega)]
    have hall : pySliceRevAll buf (0 + 1) = (buf.take 2).reverse := by
      have := pySliceRevAll_window buf 2 (by omega) (by omega)
      norm_num at this ⊢
      exact this
    rw [hall]
    have w2 := window2 buf 0 (by omega)
    rw [List.drop_zero] at w2
    rw [w2]
    simp [unpackH]
    ring
  · rw [if_pos h0]
    have hs := pySliceRevTo_window buf offset 2 h0 (by omega)
    have e : offset + 2 - 1 = offset + 1 := by omega
    rw [e] at hs
    rw [hs, window2 buf offset h]
    simp [unpackH]
    ring

/-- Witness for C6 at concrete buffers, covering both the `offset = 0` and
`offset > 0` branches. -/
theorem claim6_witness :
    0 + 2 ≤ ([3, 1, 2] : List Nat).length ∧ 1 + 2 ≤ ([9, 3, 1] : List Nat).length ∧
    _read_u16 [3, 1, 2] 0 = .ok 259 ∧ _read_u16 [9, 3, 1] 1 = .ok 259 :=
  ⟨by decide, by decide,
   (claim6_read_u16_little_endian [3, 1, 2] 0 (by decide)).trans (by decide),
   (claim6_read_u16_little_endian [9, 3, 1] 1 (by decide)).trans (by decide)⟩

/-- C7: for every buffer and every in-range offset (`offset + 8 ≤ length`),
`_read_double` assembles the reversed low 4-byte half followed by the
reversed high 4-byte half, interprets those 8 bytes as a big-endian
IEEE-754 double and returns that value rounded to 8 decimal places; and
this dual-half reversal is not the full 8-byte reversal. -/
theorem claim7_read_double_dual_half :
    (∀ (buf : List Nat) (offset : Nat), offset + 8 ≤ buf.length →
      _read_double_bytes buf offset =
        ((buf.drop offset).take 4).reverse ++ ((buf.drop (offset + 4)).take 4).reverse ∧
      _read_double buf offset =
        .ok (pyRound8 (ieeeOfBits (bytesToNatBE
          (((buf.drop offset).take 4).reverse ++ ((buf.drop (offset + 4)).take 4).reverse)))))
    ∧ _read_double_bytes [0, 1, 2, 3, 4, 5, 6, 7] 0 ≠
        (([0, 1, 2, 3, 4, 5, 6, 7] : List Nat).take 8).reverse := by
  constructor
  · intro buf offset h
    have hhigh : pySliceRevTo buf (offset + 7) (offset + 3) =
        ((buf.drop (offset + 4)).take 4).reverse := by
      have hs := pySliceRevTo_window buf (offset + 4) 4 (by omega) (by omega)
      have e1 : offset + 4 + 4 - 1 = offset + 7 := by omega
      have e2 : offset + 4 - 1 = offset + 3 := by omega
      rw [e1, e2] at hs
      exact hs
    have hbytes : _read_double_bytes buf offset =
        ((buf.drop offset).take 4).reverse ++ ((buf.drop (offset + 4)).take 4).reverse := by
      unfold _read_double_bytes
      rcases Nat.eq_zero_or_pos offset with h0 | h0
      · subst h0
        rw [if_neg (by omega)]
        have hall : pySliceRevAll buf (0 + 3) = (buf.take 4).reverse := by
          have := pySliceRevAll_window buf 4 (by omega) (by omega)
          norm_num at this ⊢
          exact this
        rw [hall, List.drop_zero, hhigh]
      · rw [if_pos h0]
        have hs := pySliceRevTo_window buf offset 4 h0 (by omega)
        have e : offset + 4 - 1 = offset + 3 := by omega
        rw [e] at hs
        rw [hs, hhigh]
    refine ⟨hbytes, ?_⟩
    unfold _read_double
    rw [hbytes]
    unfold unpackD
    have hlen : (((buf.drop offset).take 4).reverse ++
        ((buf.drop (offset + 4)).take 4).reverse).length = 8 := by
      simp [List.length_append, List.length_take, List.length_drop]
      omega
    rw [if_pos hlen]
    rfl
  · decide

/-- The byte pattern of the IEEE-754 double `1.0`, laid out as the wire
format `_read_double` expects (reversed halves). -/
def dblBuf : List Nat := [0, 0, 240, 63, 0, 0, 0, 0]

/-- Witness for C7 at a concrete 8-byte buffer. -/
theorem claim7_witness :
    _read_double_bytes dblBuf 0 =
      ((dblBuf.drop 0).take 4).reverse ++ ((dblBuf.drop (0 + 4)).take 4).reverse :=
  (claim7_read_double_dual_half.1 dblBuf 0 (by decide)).1

/-- C10: for every QDDB response buffer that passes the length validation
(`length = count * 30 + 34` with `count` read at offset 32), each
per-reading slice `[34 + 30*i, 64 + 30*i)` for `i < count` lies entirely
within the buffer and contains exactly 30 bytes, so the binary `Reading`
constructor's 30-byte length assertion cannot fail for a reading produced
by `QDDB`. -/
theorem claim10_qddb_slice_safe (res : List Nat) (c i : Nat)
    (_hcount : _read_u16 res 32 = .ok c) (h2 : res.length = c * 30 + 34) (h3 : i < c) :
    64 + i * 30 ≤ res.length ∧ (qddbSlice res i).length = 30 := by
  constructor
  · omega
  · unfold qddbSlice pySlice
    simp only [List.length_drop, List.length_take]
    omega

/-- A QDDB payload declaring one reading, with the matching length
`34 + 30`. -/
def qddbBuf1 : List Nat := List.replicate 32 0 ++ [1, 0] ++ List.replicate 30 0

/-- Witness for C10 at a concrete length-validated buffer. -/
theorem claim10_witness :
    _read_u16 qddbBuf1 32 = .ok 1 ∧ qddbBuf1.length = 1 * 30 + 34 ∧
    64 + 0 * 30 ≤ qddbBuf1.length ∧ (qddbSlice qddbBuf1 0).length = 30 :=
  ⟨by decide, by decide,
   (claim10_qddb_slice_safe qddbBuf1 1 0 (by decide) (by decide) (by decide)).1,
   (claim10_qddb_slice_safe qddbBuf1 1 0 (by decide) (by decide) (by decide)).2⟩

/-- C2 (amended): only the DisplaySnapshot parser `QDDB` enforces
`total_length = header + stride * count` before decoding any enum field,
failing with the length-mismatch error that carries the expected and
actual lengths; the RecordingSummary parser `QRSI` performs no length
validation (it decodes an oversized 77-byte payload without error), and
the SavedMeasurementBlock parser `QSMR` performs no length validation
either (a payload shorter than `38 + 30*count` fails midway inside the
`Reading` constructor with an `AssertionError`, after header fields were
already decoded, rather than with a length-mismatch error). -/
theorem claim2_length_check_amended :
    (∀ (cache : VocabCache) (res : List Nat) (c : Nat),
      _read_u16 res 32 = .ok c → res.length ≠ c * 30 + 34 →
      QDDB cache res = .error (.errLen (c * 30 + 34) res.length))
    ∧ isOkE (QRSI stdMap (List.replicate (76 + 1) 0)) = true
    ∧ QSMR stdMap (List.replicate 36 0 ++ [1, 0] ++ [0, 0]) = .error .errAssert := by
  refine ⟨?_, by decide, by decide⟩
  intro cache res c h1 h2
  unfold QDDB
  rw [h1]
  show (if res.length ≠ c * 30 + 34 then Except.error (PyErr.errLen (c * 30 + 34) res.length)
        else _) = _
  rw [if_pos h2]

/-- Counterexample to C2 as stated: `QRSI` decodes a payload of 77 bytes —
one byte longer than the fixed 76-byte RecordingSummary layout —
successfully, instead of failing with a length-mismatch error. -/
theorem claim2_counterexample :
    isOkE (QRSI stdMap (List.replicate (76 + 1) 0)) = true := by decide

/-- A QDDB payload declaring one reading but one byte too long. -/
def qddbBufBad : List Nat := List.replicate 32 0 ++ [1, 0] ++ List.replicate 31 0

/-- Witness for the amended C2: the mismatched 65-byte QDDB payload fails
with the error carrying expected length 64 and actual length 65. -/
theorem claim2_amended_witness :
    QDDB stdMap qddbBufBad = .error (.errLen 64 65) :=
  (claim2_length_check_amended.1 stdMap qddbBufBad 1 (by decide) (by decide)).trans (by decide)

/-- C1 (code bug): `QEMAP` parses `"1,5,OHM"` for table `"UNIT"` and stores
the mapping under the Python *int* key 5, but the resolution path used by
every binary record parser looks codes up under the *string* key
`str(code)`, so resolving code 5 against the very cache `QEMAP` just
stored raises `KeyError` instead of returning `"OHM"` — even though the
stored table does contain code 5 (under its int key). -/
theorem claim1_vocab_resolution_code_bug :
    QEMAP "UNIT" ["1", "5", "OHM"] [] = .ok ([(.pint 5, "OHM")], [("UNIT", [(.pint 5, "OHM")])])
    ∧ resolveMapCode [("UNIT", [(PyKey.pint 5, "OHM")])] "UNIT" 5 = .error (.errKey "5")
    ∧ dlookup [(PyKey.pint 5, "OHM")] (PyKey.pint 5) = some "OHM" :=
  ⟨by decide, by decide, by decide⟩

/-- C9 (code bug): `RangeData.__init__` on the well-formed 4-field group
`["AUTO", "VDC", "2", "3"]` stores 1-tuples — not a string and an int —
in `auto_range` and `range_number`, because the source lines end in a
trailing comma. -/
theorem claim9_rangedata_code_bug :
    rangeDataInit ["AUTO", "VDC", "2", "3"] =
      .ok ⟨.vtup1 (.vstr "AUTO"), .vstr "VDC", .vtup1 (.vint 2), .vint 3⟩ := by decide

/-- C4 (code bug): constructing an ascii-mode `Reading` from a well-formed
9-field group fails the `len(data) == 8` assertion; moreover no input list
whatsoever can construct an ascii-mode `Reading`, because a list passing
the 8-field assertion then hits `data[8]` (`IndexError`). -/
theorem claim4_ascii_reading_code_bug :
    readingAscii ["1", "2.5", "VDC", "0", "4", "5", "NORMAL", "NONE", "123.0"] = .error .errAssert
    ∧ ∀ data : List String, ∃ e, readingAscii data = .error e := by
  refine ⟨by decide, ?_⟩
  intro data
  unfold readingAscii
  by_cases h : data.length = 8
  · rw [if_neg (by omega)]
    cases hv : pyFloat (data.getD 1 "") with
    | error e => exact ⟨e, rfl⟩
    | ok v =>
      cases h3 : pyInt (data.getD 3 "") with
      | error e => exact ⟨e, rfl⟩
      | ok um =>
        cases h4 : pyInt (data.getD 4 "") with
        | error e => exact ⟨e, rfl⟩
        | ok dp =>
          cases h5 : pyInt (data.getD 5 "") with
          | error e => exact ⟨e, rfl⟩
          | ok dd =>
            have h8 : data.get? 8 = none := by
              rw [List.get?_eq_none]
              omega
            exact ⟨.errIndex, by rw [h8]⟩
  · rw [if_pos h]
    exact ⟨.errAssert, rfl⟩

/-- C5 (amended): `commandDecode` classifies a raw response by its first
byte: `'0'` (48) returns the payload with one leading carriage return, one
trailing carriage return and a `"#0"` prefix each stripped if present;
`'1'`/`'2'`/`'5'` fail with the syntax/execution/no-data errors; an empty
response and any other first byte below 0x80 fail with the
invalid-response error; a first byte of 0x80 or above fails with a
`UnicodeDecodeError` from the status-byte decode instead. No failure case
returns a payload. -/
theorem claim5_status_decode_amended :
    (∀ rest : List Nat, commandDecode (48 :: rest) = .ok (stripPayload rest))
    ∧ (∀ rest : List Nat, commandDecode (49 :: rest) = .error .errSyntaxStatus)
    ∧ (∀ rest : List Nat, commandDecode (50 :: rest) = .error .errExecution)
    ∧ (∀ rest : List Nat, commandDecode (53 :: rest) = .error .errNoData)
    ∧ commandDecode [] = .error .errInvalid
    ∧ (∀ (b : Nat) (rest : List Nat), b < 128 → b ≠ 48 → b ≠ 49 → b ≠ 50 → b ≠ 53 →
        commandDecode (b :: rest) = .error .errInvalid)
    ∧ (∀ (b : Nat) (rest : List Nat), 128 ≤ b → commandDecode (b :: rest) = .error .errUnicode) := by
  refine ⟨fun rest => by norm_num [commandDecode], fun rest => by norm_num [commandDecode],
          fun rest => by norm_num [commandDecode], fun rest => by norm_num [commandDecode],
          rfl, ?_, ?_⟩
  · intro b rest hlt h48 h49 h50 h53
    simp only [commandDecode]
    rw [if_neg (by omega), if_neg h48, if_neg h49, if_neg h50, if_neg h53]
  · intro b rest hge
    simp only [commandDecode]
    rw [if_pos hge]

/-- Counterexample to C5 as stated: a response whose first byte is 200
(not one of the recognised status digits) fails with the model of
`UnicodeDecodeError`, not with the invalid-response error the claim
requires for every unrecognised first byte. -/
theorem claim5_counterexample :
    commandDecode [200, 48] = .error .errUnicode
    ∧ decide (commandDecode [200, 48] = .error .errInvalid) = false := by decide

/-- Witness for the amended C5: the unknown ASCII status byte `'9'` (57)
fails with the invalid-response error, and first byte 200 fails with the
text-decode error. -/
theorem claim5_amended_witness :
    commandDecode [57] = .error .errInvalid ∧ commandDecode [200] = .error .errUnicode :=
  ⟨claim5_status_decode_amended.2.2.2.2.2.1 57 [] (by decide) (by decide) (by decide)
     (by decide) (by decide),
   claim5_status_decode_amended.2.2.2.2.2.2 200 [] (by decide)⟩

/-- Helper: removing an absent leading marker changes nothing. -/
lemma pyDropLead_of_neg (l p : List Nat) (h : p.isPrefixOf l = false) : pyDropLead l p = l := by
  simp [pyDropLead, h]

/-- Helper: removing an absent trailing marker changes nothing. -/
lemma pyDropTrail_of_neg (l p : List Nat) (h : p.isSuffixOf l = false) : pyDropTrail l p = l := by
  simp [pyDropTrail, h]

/-- C8 (amended): stripping a second time removes nothing further,
*provided* the once-stripped payload does not itself still begin with a
carriage return or a `"#0"` marker or end with a carriage return; a
payload with doubled markers (for example `b"\r\rX"`) does lose content
on the second strip. -/
theorem claim8_strip_idempotent_amended (p : List Nat)
    (h1 : ([13] : List Nat).isPrefixOf (stripPayload p) = false)
    (h2 : ([13] : List Nat).isSuffixOf (stripPayload p) = false)
    (h3 : ([35, 48] : List Nat).isPrefixOf (stripPayload p) = false) :
    stripPayload (stripPayload p) = stripPayload p := by
  show pyDropLead (pyDropTrail (pyDropLead (stripPayload p) [13]) [13]) [35, 48] = stripPayload p
  rw [pyDropLead_of_neg _ _ h1, pyDropTrail_of_neg _ _ h2, pyDropLead_of_neg _ _ h3]

/-- Counterexample to C8 as stated: the payload `b"\r\rX"` strips to
`b"\rX"`, and stripping that a second time removes the surviving carriage
return, so the strip is not idempotent on every payload. -/
theorem claim8_counterexample :
    stripPayload [13, 13, 120] = [13, 120]
    ∧ stripPayload (stripPayload [13, 13, 120]) = [120]
    ∧ decide (stripPayload (stripPayload [13, 13, 120]) = stripPayload [13, 13, 120]) = false := by
  decide

/-- Witness for the amended C8 at the marker-free payload `b"x"`. -/
theorem claim8_amended_witness :
    ([13] : List Nat).isPrefixOf (stripPayload [120]) = false
    ∧ stripPayload (stripPayload [120]) = stripPayload [120] :=
  ⟨by decide, claim8_strip_idempotent_amended [120] (by decide) (by decide) (by decide)⟩

/-- Helper: a terminal loop round (the chunk is not the full transferable
size) returns that chunk and records the single request. -/
lemma qlcdbmLoop_last (tr : Nat → List Nat) (fuel off : Nat)
    (h : ¬(((chunkAt tr off).length : Int) = 1020 - ((pyFormatNat off).length + 1 : Int))) :
    qlcdbmLoop tr (fuel + 1) off = some (chunkAt tr off, [off]) := by
  simp only [qlcdbmLoop]
  rw [if_neg h]

/-- Helper: a continuing loop round (the chunk is the full transferable
size) prepends its chunk and request to the rest of the run. -/
lemma qlcdbmLoop_step (tr : Nat → List Nat) (fuel off : Nat)
    (h : ((chunkAt tr off).length : Int) = 1020 - ((pyFormatNat off).length + 1 : Int)) :
    qlcdbmLoop tr (fuel + 1) off =
      match qlcdbmLoop tr fuel (off + (chunkAt tr off).length) with
      | none => none
      | some (restBuf, restReqs) => some (chunkAt tr off ++ restBuf, off :: restReqs) := by
  simp only [qlcdbmLoop]
  rw [if_pos h]

/-- Helper: an offset whose chunk is empty while the continuation
threshold is zero loops forever (the loop never yields a result). -/
lemma qlcdbmLoop_stuck (tr : Nat → List Nat) (off : Nat)
    (h0 : (chunkAt tr off).length = 0)
    (hth : (((0 : Nat) : Int) = 1020 - ((pyFormatNat off).length + 1 : Int))) :
    ∀ fuel, qlcdbmLoop tr fuel off = none := by
  intro fuel
  induction fuel with
  | zero => rfl
  | succ n ih =>
    simp only [qlcdbmLoop]
    rw [h0, if_pos hth, Nat.add_zero, ih]

/-- Helper: whenever the transfer loop completes, the requested offsets
start at the loop's starting offset, advance exactly by the chunk
received at each previous offset, are strictly increasing, and the
assembled bytes are exactly the concatenation of the received chunks. -/
lemma qlcdbmLoop_spec (tr : Nat → List Nat) :
    ∀ (fuel off : Nat) (buf reqs : List Nat),
      qlcdbmLoop tr fuel off = some (buf, reqs) →
      reqs.head? = some off ∧ offsetsCumulative tr reqs ∧
      List.Chain' (· < ·) reqs ∧ buf.length = sumChunks tr reqs := by
  intro fuel
  induction fuel with
  | zero => intro off buf reqs h; exact absurd h (by simp [qlcdbmLoop])
  | succ n ih =>
    intro off buf reqs h
    simp only [qlcdbmLoop] at h
    by_cases hc : (((chunkAt tr off).length : Int) = 1020 - ((pyFormatNat off).length + 1 : Int))
    · rw [if_pos hc] at h
      cases hrec : qlcdbmLoop tr n (off + (chunkAt tr off).length) with
      | none => rw [hrec] at h; exact absurd h (by simp)
      | some pr =>
        obtain ⟨rbuf, rreqs⟩ := pr
        rw [hrec] at h
        have hpair : chunkAt tr off ++ rbuf = buf ∧ off :: rreqs = reqs := by
          simpa using h
        obtain ⟨hbuf, hreqs⟩ := hpair
        obtain ⟨hh, hcum, hchain, hsum⟩ := ih (off + (chunkAt tr off).length) rbuf rreqs hrec
        have hpos : 0 < (chunkAt tr off).length := by
          rcases Nat.eq_zero_or_pos (chunkAt tr off).length with h0 | h0
          · exfalso
            rw [h0] at hc
            have hnone := qlcdbmLoop_stuck tr off h0 hc n
            rw [h0, Nat.add_zero] at hrec
            rw [hnone] at hrec
            exact absurd hrec (by simp)
          · exact h0
        subst hbuf
        subst hreqs
        cases rreqs with
        | nil => simp at hh
        | cons b bs =>
          have hb : b = off + (chunkAt tr off).length := by simpa using hh
          refine ⟨rfl, ⟨hb, hcum⟩, ?_, ?_⟩
          · rw [List.chain'_cons]
            exact ⟨by omega, hchain⟩
          · rw [List.length_append, hsum]
            simp [sumChunks]
    · rw [if_neg hc] at h
      have hpair : chunkAt tr off = buf ∧ [off] = reqs := by
        simpa using h
      obtain ⟨hbuf, hreqs⟩ := hpair
      subst hbuf
      subst hreqs
      exact ⟨rfl, trivial, by simp, by simp [sumChunks]⟩

/-- C3 (amended): whenever the reassembler completes, the first requested
offset is 0, every later requested offset equals the previous offset
advanced by the chunk received there (so offsets are strictly increasing
and equal the cumulative bytes received), and the assembled buffer's
length is the sum of all chunk lengths. However, the continuation
threshold at a 4-digit offset is `1020 - len("<offset> ") = 1015`, not
1018: with chunks whose lengths match the thresholds (1018 at offset 0,
then 1015-byte chunks at offsets 1018 and 2033, and a smaller final chunk
at 3048), the reassembler issues exactly 4 requests and assembles
`1018 + 1015 + 1015 + 200` bytes. -/
theorem claim3_reassembly_amended :
    (∀ (tr : Nat → List Nat) (fuel : Nat) (buf reqs : List Nat),
      QLCDBM tr fuel = some (buf, reqs) →
      reqs.head? = some 0 ∧ offsetsCumulative tr reqs ∧
      List.Chain' (· < ·) reqs ∧ buf.length = sumChunks tr reqs)
    ∧ (QLCDBM trChunkMax 5).map (fun p => (p.1.length, p.2)) =
        some (1018 + 1015 + 1015 + 200, [0, 1018, 2033, 3048]) := by
  constructor
  · intro tr fuel buf reqs h
    simp only [QLCDBM] at h
    by_cases hlen : (chunkAt tr 0).length = 1018
    · rw [if_pos hlen] at h
      cases hrec : qlcdbmLoop tr fuel 1018 with
      | none => rw [hrec] at h; exact absurd h (by simp)
      | some pr =>
        obtain ⟨rbuf, rreqs⟩ := pr
        rw [hrec] at h
        have hpair : chunkAt tr 0 ++ rbuf = buf ∧ 0 :: rreqs = reqs := by
          simpa using h
        obtain ⟨hbuf, hreqs⟩ := hpair
        obtain ⟨hh, hcum, hchain, hsum⟩ := qlcdbmLoop_spec tr fuel 1018 rbuf rreqs hrec
        subst hbuf
        subst hreqs
        cases rreqs with
        | nil => simp at hh
        | cons b bs =>
          have hb : b = 1018 := by simpa using hh
          refine ⟨rfl, ⟨by omega, hcum⟩, ?_, ?_⟩
          · rw [List.chain'_cons]
            exact ⟨by omega, hchain⟩
          · rw [List.length_append, hsum]
            simp [sumChunks, hlen]
    · rw [if_neg hlen] at h
      have hpair : chunkAt tr 0 = buf ∧ [0] = reqs := by
        simpa using h
      obtain ⟨hbuf, hreqs⟩ := hpair
      subst hbuf
      subst hreqs
      exact ⟨rfl, trivial, by simp, by simp [sumChunks]⟩
  · have s3 : qlcdbmLoop trChunkMax 3 3048 = some (chunkAt trChunkMax 3048, [3048]) :=
      qlcdbmLoop_last trChunkMax 2 3048 (by decide)
    have s2 : qlcdbmLoop trChunkMax 4 2033 =
        some (chunkAt trChunkMax 2033 ++ chunkAt trChunkMax 3048, [2033, 3048]) := by
      have e : (4 : Nat) = 3 + 1 := rfl
      rw [e, qlcdbmLoop_step trChunkMax 3 2033 (by decide)]
      have h : 2033 + (chunkAt trChunkMax 2033).length = 3048 := by decide
      rw [h, s3]
    have s1 : qlcdbmLoop trChunkMax 5 1018 =
        some (chunkAt trChunkMax 1018 ++ (chunkAt trChunkMax 2033 ++ chunkAt trChunkMax 3048),
              [1018, 2033, 3048]) := by
      have e : (5 : Nat) = 4 + 1 := rfl
      rw [e, qlcdbmLoop_step trChunkMax 4 1018 (by decide)]
      have h : 1018 + (chunkAt trChunkMax 1018).length = 2033 := by decide
      rw [h, s2]
    have stop : QLCDBM trChunkMax 5 =
        some (chunkAt trChunkMax 0 ++
                (chunkAt trChunkMax 1018 ++ (chunkAt trChunkMax 2033 ++ chunkAt trChunkMax 3048)),
              [0, 1018, 2033, 3048]) := by
      simp only [QLCDBM]
      rw [if_pos (by decide : (chunkAt trChunkMax 0).length = 1018), s1]
    rw [stop]
    have l0 : (chunkAt trChunkMax 0).length = 1018 := by decide
    have l1 : (chunkAt trChunkMax 1018).length = 1015 := by decide
    have l2 : (chunkAt trChunkMax 2033).length = 1015 := by decide
    have l3 : (chunkAt trChunkMax 3048).length = 200 := by decide
    simp [List.length_append, l0, l1, l2, l3]

/-- Counterexample to C3 as stated: against a transport returning exactly
1018-byte chunks at offsets 0, 1018 and 2036, the reassembler stops after
only 2 requests (offsets 0 and 1018) with 2036 bytes, because at offset
1018 the continuation threshold is 1015, not 1018 — the claimed 4-request
run never happens. -/
theorem claim3_counterexample :
    (QLCDBM trChunk1018 5).map (fun p => (p.1.length, p.2)) = some (2036, [0, 1018]) := by
  have s1 : qlcdbmLoop trChunk1018 5 1018 = some (chunkAt trChunk1018 1018, [1018]) :=
    qlcdbmLoop_last trChunk1018 4 1018 (by decide)
  have stop : QLCDBM trChunk1018 5 =
      some (chunkAt trChunk1018 0 ++ chunkAt trChunk1018 1018, [0, 1018]) := by
    simp only [QLCDBM]
    rw [if_pos (by decide : (chunkAt trChunk1018 0).length = 1018), s1]
  rw [stop]
  have l0 : (chunkAt trChunk1018 0).length = 1018 := by decide
  have l1 : (chunkAt trChunk1018 1018).length = 1018 := by decide
  simp [List.length_append, l0, l1]

/-- A simulated transport whose first chunk is only 2 bytes, so the
transfer completes after the single request at offset 0. -/
def trSmall (off : Nat) : List Nat := pyFormatNat off ++ [32, 35, 48] ++ [65, 66]

/-- Witness for the amended C3 at a concrete single-chunk transport. -/
theorem claim3_amended_witness :
    QLCDBM trSmall 5 = some ([65, 66], [0])
    ∧ ([0] : List Nat).head? = some 0 ∧ offsetsCumulative trSmall [0]
    ∧ List.Chain' (· < ·) ([0] : List Nat) ∧ ([65, 66] : List Nat).length = sumChunks trSmall [0] := by
  have h0 : QLCDBM trSmall 5 = some ([65, 66], [0]) := by decide
  have h := claim3_reassembly_amended.1 trSmall 5 [65, 66] [0] h0
  exact ⟨h0, h.1, h.2.1, h.2.2.1, h.2.2.2⟩
